import Mathlib

/-!
Shallow embedding of the CSV-to-Orb ingestion pipeline (`src/orb_csv.py`).

The remote Orb platform is an external collaborator; it is modelled as an
oracle (`Orb`) whose operations either return an identifier or fail
(`none`, standing for a raised exception caught by the Python code).
Pandas column operations are modelled column-wise, matching the semantics
of `Series.replace(..., regex=True)`, `Series.astype(float,
errors='ignore')` (which returns the whole column unchanged if any element
fails to convert) and `Series.fillna(0)`.

Python floats produced by `astype(float)` are modelled as exact decimals
(`Decimal`: integer mantissa and a power-of-ten scale).  The pipeline
performs no arithmetic or comparison on these numbers, so the exact-decimal
model is observationally faithful for every value the cleaner produces.
-/

/-- Digit value of a decimal digit character. -/
def digitVal (c : Char) : Nat := c.toNat - 48

/-- Value of a list of decimal digit characters, most significant first. -/
def digitsToNat (cs : List Char) : Nat := cs.foldl (fun a c => a * 10 + digitVal c) 0

/-- Model of Python `str.replace(c, "")` for a single-character pattern:
removes every occurrence of the character. -/
def removeAll (c : Char) (s : String) : String := ⟨s.toList.filter (fun d => d ≠ c)⟩

/-- Exact-decimal model of a Python float produced by parsing a decimal
string: the value is `mant / 10 ^ scale`. -/
structure Decimal where
  mant : Int
  scale : Nat
  deriving DecidableEq, Repr

/-- Core of the Python `float()` parser on an unsigned decimal string:
digits with an optional single decimal point.  Exponent forms, infinities
and surrounding whitespace are treated as unparsable; the CSV columns this
pipeline cleans only carry plain decimal strings. -/
def parseFloatCore (cs : List Char) : Option Decimal :=
  let ip := cs.takeWhile Char.isDigit
  let rest := cs.dropWhile Char.isDigit
  match rest with
  | [] => if ip.isEmpty then none else some ⟨Int.ofNat (digitsToNat ip), 0⟩
  | '.' :: fp =>
    if fp.all Char.isDigit && !(ip.isEmpty && fp.isEmpty) then
      some ⟨Int.ofNat (digitsToNat ip * 10 ^ fp.length + digitsToNat fp), fp.length⟩
    else none
  | _ => none

/-- Model of Python `float(s)` restricted to plain signed decimal strings. -/
def parseFloat (s : String) : Option Decimal :=
  match s.toList with
  | '-' :: t => (parseFloatCore t).map (fun d => ⟨-d.mant, d.scale⟩)
  | '+' :: t => parseFloatCore t
  | t => parseFloatCore t

/-- One cell of a pandas column: a string, a number, or a missing value
(NaN). -/
inductive Cell where
  | str (s : String)
  | num (d : Decimal)
  | nan
  deriving DecidableEq, Repr

/-- Model of `Series.replace({",": ""}, regex=True)` on one cell: commas are
stripped from string cells, other cells are unchanged. -/
def replaceCommasCell : Cell → Cell
  | .str s => .str (removeAll ',' s)
  | c => c

/-- Element-level conversion attempted by `Series.astype(float)`: strings go
through `float()`, numbers are kept, NaN stays NaN; `none` models a raised
conversion error. -/
def tryFloatCell : Cell → Option Cell
  | .str s => (parseFloat s).map .num
  | .num d => some (.num d)
  | .nan => some .nan

/-- Sequence a fallible function over a list, failing if any element fails
(the `Option` monad's `mapM`, written structurally). -/
def mapOption (f : α → Option β) : List α → Option (List β)
  | [] => some []
  | x :: xs =>
    match f x, mapOption f xs with
    | some y, some ys => some (y :: ys)
    | _, _ => none

/-- Model of `Series.astype(float, errors='ignore')`: converts the whole
column, but returns the column unchanged if the conversion of any element
raises. -/
def astypeFloatIgnore (col : List Cell) : List Cell :=
  match mapOption tryFloatCell col with
  | some converted => converted
  | none => col

/-- Model of `Series.fillna(0)` on one cell. -/
def fillnaZeroCell : Cell → Cell
  | .nan => .num ⟨0, 0⟩
  | c => c

/-- Embedding of line 89/90 of `src/orb_csv.py`:
`data[c].replace({",": ""}, regex=True).astype(float, errors='ignore').fillna(0)`. -/
def cleanNumericColumn (col : List Cell) : List Cell :=
  (astypeFloatIgnore (col.map replaceCommasCell)).map fillnaZeroCell

/-- Calendar datetime, second precision, as handled by
`datetime.fromisoformat` and `strftime` in `src/orb_csv.py`. -/
structure DateTime where
  year : Nat
  month : Nat
  day : Nat
  hour : Nat
  minute : Nat
  second : Nat
  deriving DecidableEq, Repr

/-- Gregorian leap-year rule. -/
def isLeap (y : Nat) : Bool := (y % 4 == 0 && y % 100 != 0) || (y % 400 == 0)

/-- Number of days in a month of a given year. -/
def daysInMonth (y m : Nat) : Nat :=
  if m == 2 then (if isLeap y then 29 else 28)
  else if m == 4 || m == 6 || m == 9 || m == 11 then 30
  else 31

/-- Successor day in the Gregorian calendar, keeping the time of day. -/
def nextDay (dt : DateTime) : DateTime :=
  if dt.day < daysInMonth dt.year dt.month then { dt with day := dt.day + 1 }
  else if dt.month < 12 then { dt with month := dt.month + 1, day := 1 }
  else { dt with year := dt.year + 1, month := 1, day := 1 }

/-- Model of `datetime + timedelta(days=n)`. -/
def addDays (dt : DateTime) : Nat → DateTime
  | 0 => dt
  | n + 1 => addDays (nextDay dt) n

/-- Two-digit zero-padded decimal rendering (`%m`, `%d`, `%H`, `%M`, `%S`). -/
def pad2 (n : Nat) : String := if n < 10 then "0" ++ toString n else toString n

/-- Four-digit zero-padded decimal rendering (`%Y`). -/
def pad4 (n : Nat) : String :=
  if n < 10 then "000" ++ toString n
  else if n < 100 then "00" ++ toString n
  else if n < 1000 then "0" ++ toString n
  else toString n

/-- Model of `strftime("%Y-%m-%dT%H:%M:%SZ")`, trailing `Z` included, as
written at lines 23 and 93 of `src/orb_csv.py`. -/
def formatIso (dt : DateTime) : String :=
  pad4 dt.year ++ "-" ++ pad2 dt.month ++ "-" ++ pad2 dt.day ++ "T" ++
    pad2 dt.hour ++ ":" ++ pad2 dt.minute ++ ":" ++ pad2 dt.second ++ "Z"

/-- Model of `datetime.fromisoformat` on the `YYYY-MM-DDTHH:MM:SS` strings
this pipeline produces; anything else raises, modelled by `none`. -/
def parseIso (s : String) : Option DateTime :=
  match s.toList with
  | [y1, y2, y3, y4, '-', m1, m2, '-', d1, d2, 'T', h1, h2, ':', n1, n2, ':', s1, s2] =>
    if y1.isDigit && y2.isDigit && y3.isDigit && y4.isDigit &&
        m1.isDigit && m2.isDigit && d1.isDigit && d2.isDigit &&
        h1.isDigit && h2.isDigit && n1.isDigit && n2.isDigit &&
        s1.isDigit && s2.isDigit then
      let y := ((digitVal y1 * 10 + digitVal y2) * 10 + digitVal y3) * 10 + digitVal y4
      let mo := digitVal m1 * 10 + digitVal m2
      let d := digitVal d1 * 10 + digitVal d2
      let h := digitVal h1 * 10 + digitVal h2
      let mi := digitVal n1 * 10 + digitVal n2
      let se := digitVal s1 * 10 + digitVal s2
      if 1 ≤ mo && mo ≤ 12 && 1 ≤ d && d ≤ daysInMonth y mo &&
          h ≤ 23 && mi ≤ 59 && se ≤ 59 then
        some ⟨y, mo, d, h, mi, se⟩
      else none
    else none
  | _ => none

/-- Strict `%m-%Y` parse performed by `pd.to_datetime(..., format="%m-%Y")`
(line 93): a one- or two-digit month in `1..12`, a dash, a four-digit year;
anything else coerces to NaT, modelled by `none`. -/
def parseMonthYear (s : String) : Option (Nat × Nat) :=
  match s.toList with
  | [m1, m2, '-', y1, y2, y3, y4] =>
    if m1.isDigit && m2.isDigit && y1.isDigit && y2.isDigit && y3.isDigit && y4.isDigit then
      let m := digitVal m1 * 10 + digitVal m2
      if 1 ≤ m && m ≤ 12 then
        some (m, ((digitVal y1 * 10 + digitVal y2) * 10 + digitVal y3) * 10 + digitVal y4)
      else none
    else none
  | [m1, '-', y1, y2, y3, y4] =>
    if m1.isDigit && y1.isDigit && y2.isDigit && y3.isDigit && y4.isDigit then
      let m := digitVal m1
      if 1 ≤ m then
        some (m, ((digitVal y1 * 10 + digitVal y2) * 10 + digitVal y3) * 10 + digitVal y4)
      else none
    else none
  | _ => none

/-- Embedding of line 93 of `src/orb_csv.py`: parse the `month` column with
format `%m-%Y` (coercing failures to NaT) and render the result with
`strftime("%Y-%m-%dT%H:%M:%SZ")`; NaT renders as a missing value. -/
def monthToIso (s : String) : Option String :=
  (parseMonthYear s).map (fun my => formatIso ⟨my.2, my.1, 1, 0, 0, 0⟩)

example : monthToIso "03-2024" = some "2024-03-01T00:00:00Z" := by decide
example : parseFloat "1234.50" = some ⟨123450, 2⟩ := by decide
example : parseFloat "abc" = none := by decide
example : removeAll ',' "1,234.50" = "1234.50" := by decide
example : cleanNumericColumn [Cell.str "abc"] = [Cell.str "abc"] := by decide
example : cleanNumericColumn [Cell.str "1,234.50", Cell.nan] = [Cell.num ⟨123450, 2⟩, Cell.num ⟨0, 0⟩] := by decide
example : parseIso "2024-02-25T12:30:00" = some ⟨2024, 2, 25, 12, 30, 0⟩ := by decide
example : formatIso (addDays ⟨2024, 2, 25, 12, 30, 0⟩ 9) = "2024-03-05T12:30:00Z" := by decide

/-- Oracle for the remote Orb platform (an external collaborator).  Each
operation returns the identifier the platform assigns, or `none` when the
remote call raises an exception.  The oracle is a function of the call's
arguments, so one run is deterministic, matching a single network
environment. -/
structure Orb where
  createCustomer : String → String → Option String
  createBackfill : String → String → Option String

/-- Argument record of `create_or_get_customer` (`customer_data`): the
driver passes `account_id` and `email`; `name` is absent and defaulted
inside the resolver. -/
structure CustomerData where
  account_id : String
  email : Option String
  name : Option String

/-- Association-list model of the `customer_cache` dict. -/
def lookupCache : List (String × String) → String → Option String
  | [], _ => none
  | (k, v) :: rest, a => if k = a then some v else lookupCache rest a

/-- Embedding of `create_or_get_customer` (lines 38-64 of `src/orb_csv.py`).
Returns the resolved customer id (`none` models the caught exception path
that returns `None`), the updated cache, and the list of account ids for
which a remote customer-creation call was issued (`[]` on a cache hit, one
element otherwise). -/
def create_or_get_customer (orb : Orb) (cd : CustomerData)
    (cache : List (String × String)) :
    Option String × List (String × String) × List String :=
  match lookupCache cache cd.account_id with
  | some cid => (some cid, cache, [])
  | none =>
    match orb.createCustomer (cd.email.getD (cd.account_id ++ "@example.com"))
        (cd.name.getD ("Customer " ++ cd.account_id)) with
    | some cid => (some cid, (cd.account_id, cid) :: cache, [cd.account_id])
    | none => (none, cache, [cd.account_id])

/-- One row of the DataFrame after the column cleanup of lines 88-93:
`standard` and `sameday` are cleaned cells, `iso_timestamp` is the rendered
month (or missing when the month failed to parse), and `customer_id` is
`none` when the column value is missing/NaN/None. -/
structure Row where
  account_id : String
  month : String
  transaction_id : String
  account_type : String
  bank_id : String
  standard : Cell
  sameday : Cell
  customer_id : Option String
  iso_timestamp : Option String
  deriving DecidableEq, Repr

/-- Event dictionary built at lines 112-126 of `src/orb_csv.py`; the
`properties` sub-dictionary is inlined field by field. -/
structure EventParams where
  event_name : String
  idempotency_key : String
  account_id : String
  month : String
  transaction_id : String
  account_type : String
  bank_id : String
  standard : Cell
  sameday : Cell
  timestamp : Option String
  customer_id : String
  deriving DecidableEq, Repr

/-- Build the event for one row (lines 112-126); `index` is the DataFrame
index of the row, a `RangeIndex` position for a freshly read CSV. -/
def mkEvent (index : Nat) (row : Row) (cid : String) : EventParams :=
  { event_name := "ingest_event"
    idempotency_key := "event_" ++ toString index
    account_id := row.account_id
    month := row.month
    transaction_id := row.transaction_id
    account_type := row.account_type
    bank_id := row.bank_id
    standard := row.standard
    sameday := row.sameday
    timestamp := row.iso_timestamp
    customer_id := cid }

/-- Python truthiness plus `pd.isna` as used at line 101: a customer id is
kept only when present and a non-empty string. -/
def truthyString : Option String → Option String
  | some s => if s = "" then none else some s
  | none => none

/-- State threaded through the row loop of `ingest_csv_to_orb`: the
customer cache, the accumulated events, the trace of remote
customer-creation calls (account ids, in call order), and the trace of
resolver invocations with their results. -/
structure IngestState where
  cache : List (String × String)
  events : List EventParams
  customerCalls : List String
  resolutions : List (String × Option String)

/-- Initial loop state (`customer_cache = {}`, `events = []`). -/
def initState : IngestState :=
  { cache := [], events := [], customerCalls := [], resolutions := [] }

/-- Embedding of one iteration of the row loop (lines 97-130): keep a
truthy `customer_id` as is, otherwise resolve through the cache, skipping
the row when resolution fails. -/
def processRow (orb : Orb) (index : Nat) (row : Row) (st : IngestState) : IngestState :=
  match truthyString row.customer_id with
  | some cid => { st with events := st.events ++ [mkEvent index row cid] }
  | none =>
    let r := create_or_get_customer orb
      { account_id := row.account_id
        email := some (row.account_id ++ "@example.com")
        name := none } st.cache
    let st1 : IngestState :=
      { st with
        cache := r.2.1
        customerCalls := st.customerCalls ++ r.2.2
        resolutions := st.resolutions ++ [(row.account_id, r.1)] }
    match r.1 with
    | none => st1
    | some cid => { st1 with events := st1.events ++ [mkEvent index row cid] }

/-- The row loop itself, `index` running over the DataFrame's RangeIndex. -/
def processRows (orb : Orb) (index : Nat) (rows : List Row) (st : IngestState) : IngestState :=
  match rows with
  | [] => st
  | r :: rs => processRows orb (index + 1) rs (processRow orb index r st)

/-- Full event-building phase of `ingest_csv_to_orb`: the loop starting
from the empty cache and empty event list at index 0. -/
def buildEvents (orb : Orb) (rows : List Row) : IngestState :=
  processRows orb 0 rows initState

/-- Python exceptions that the `try`/`except` blocks of `src/orb_csv.py`
can catch around the backfill computation. -/
inductive PyError where
  | valueErrorEmptyMin
  | typeErrorNaN
  | valueErrorBadIso
  | apiError
  deriving DecidableEq, Repr

/-- Message text attached to each modelled exception. -/
def pyMsg : PyError → String
  | .valueErrorEmptyMin => "min() arg is an empty sequence"
  | .typeErrorNaN => "unorderable types: float and str"
  | .valueErrorBadIso => "Invalid isoformat string"
  | .apiError => "API error"

/-- Embedding of line 22, `min(event["timestamp"] for event in events)`:
raises `ValueError` on an empty batch; raises while comparing when some
timestamp is missing (a NaT rendered as NaN); otherwise the
lexicographically least timestamp string, which Python's `min` computes by
a left fold. -/
def minTimestamp (events : List EventParams) : Except PyError String :=
  match mapOption (fun e => e.timestamp) events with
  | none => .error .typeErrorNaN
  | some ts =>
    match ts.min? with
    | some t => .ok t
    | none => .error .valueErrorEmptyMin

/-- Argument record of the remote `events.backfills.create` call
(lines 25-30). -/
structure BackfillRequest where
  timeframe_start : String
  timeframe_end : String
  close_time : Option String
  replace_existing_events : Bool
  deriving DecidableEq, Repr

/-- Embedding of `create_backfill` (lines 10-36 of `src/orb_csv.py`).
Returns the backfill id (`none` for the caught-exception path returning
`None`), the request submitted to the platform (`none` when the
computation raised before the remote call), and the message printed. -/
def create_backfill (orb : Orb) (events : List EventParams) :
    Option String × Option BackfillRequest × String :=
  match minTimestamp events with
  | .error e => (none, none, "Error creating backfill: " ++ pyMsg e)
  | .ok tstart =>
    match parseIso (removeAll 'Z' tstart) with
    | none => (none, none, "Error creating backfill: " ++ pyMsg .valueErrorBadIso)
    | some dt =>
      let tend := formatIso (addDays dt 9)
      let req : BackfillRequest :=
        { timeframe_start := tstart
          timeframe_end := tend
          close_time := none
          replace_existing_events := true }
      match orb.createBackfill tstart tend with
      | some bid => (some bid, some req, "Backfill created successfully with ID: " ++ bid)
      | none => (none, some req, "Error creating backfill: " ++ pyMsg .apiError)

/-- One row of the DataFrame as read by `pd.read_csv`, before the cleanup
of lines 88-93. -/
structure RawRow where
  account_id : String
  month : String
  transaction_id : String
  account_type : String
  bank_id : String
  standard : Cell
  sameday : Cell
  customer_id : Option String
  deriving DecidableEq, Repr

/-- Pointwise zip of three lists, truncating at the shortest. -/
def zipWith3 (f : α → β → γ → δ) : List α → List β → List γ → List δ
  | a :: as, b :: bs, c :: cs => f a b c :: zipWith3 f as bs cs
  | _, _, _ => []

/-- Embedding of the DataFrame cleanup (lines 88-93): clean the two numeric
columns column-wise and derive `iso_timestamp` from `month` row-wise. -/
def cleanRows (raws : List RawRow) : List Row :=
  zipWith3 (fun r std sd =>
      { account_id := r.account_id
        month := r.month
        transaction_id := r.transaction_id
        account_type := r.account_type
        bank_id := r.bank_id
        standard := std
        sameday := sd
        customer_id := r.customer_id
        iso_timestamp := monthToIso r.month })
    raws
    (cleanNumericColumn (raws.map (fun r => r.standard)))
    (cleanNumericColumn (raws.map (fun r => r.sameday)))

/-- The single `events.ingest` call issued at line 140. -/
structure IngestCall where
  events : List EventParams
  debug : Bool
  backfill_id : Option String
  deriving DecidableEq, Repr

/-- Observable outcome of one batch-mode run. -/
structure RunResult where
  finalState : IngestState
  backfillRequest : Option BackfillRequest
  backfill_id : Option String
  ingestCalls : List IngestCall
  messages : List String

/-- Embedding of `ingest_csv_to_orb` (lines 66-154) after the CSV is read:
clean the columns, run the row loop, and either run the backfill-then-
ingest protocol (lines 132-143) or report that no events were prepared
(line 145). -/
def ingest_csv_to_orb (orb : Orb) (raws : List RawRow) : RunResult :=
  let st := buildEvents orb (cleanRows raws)
  if st.events.isEmpty then
    { finalState := st
      backfillRequest := none
      backfill_id := none
      ingestCalls := []
      messages := ["No events were prepared for ingestion."] }
  else
    let cb := create_backfill orb st.events
    { finalState := st
      backfillRequest := cb.2.1
      backfill_id := cb.1
      ingestCalls := [{ events := st.events, debug := true, backfill_id := cb.1 }]
      messages := cb.2.2 ::
        (match cb.1 with
         | some b => ["Backfill created with ID: " ++ b]
         | none => []) }

/-! Helper lemmas about the list combinators of the embedding. -/

/-- An element located by `getElem?` is a member of the list. -/
theorem mem_of_getElem_some {l : List α} {i : Nat} {x : α} (h : l[i]? = some x) : x ∈ l := by
  induction l generalizing i with
  | nil => rw [List.getElem?_nil] at h; cases h
  | cons a as ih =>
    cases i with
    | zero => rw [List.getElem?_cons_zero] at h; exact (Option.some.inj h) ▸ List.mem_cons_self a as
    | succ n => rw [List.getElem?_cons_succ] at h; exact List.mem_cons_of_mem a (ih h)

/-- `mapOption` fails as soon as one element fails. -/
theorem mapOption_eq_none_of_mem {f : α → Option β} {x : α} {xs : List α}
    (hx : x ∈ xs) (hf : f x = none) : mapOption f xs = none := by
  induction xs with
  | nil => cases hx
  | cons y ys ih =>
    rcases List.mem_cons.mp hx with rfl | h
    · simp [mapOption, hf]
    · cases hfy : f y <;> simp [mapOption, hfy, ih h]

/-- A successful `mapOption` maps positions pointwise. -/
theorem mapOption_getElem {f : α → Option β} :
    ∀ {xs : List α} {ys : List β} {i : Nat} {x : α},
      mapOption f xs = some ys → xs[i]? = some x →
      ∃ y, f x = some y ∧ ys[i]? = some y := by
  intro xs
  induction xs with
  | nil => intro ys i x h hx; rw [List.getElem?_nil] at hx; cases hx
  | cons a as ih =>
    intro ys i x h hx
    cases hfa : f a with
    | none => simp [mapOption, hfa] at h
    | some y =>
      cases hrec : mapOption f as with
      | none => simp [mapOption, hfa, hrec] at h
      | some ys2 =>
        simp only [mapOption, hfa, hrec] at h
        obtain rfl := Option.some.inj h
        cases i with
        | zero =>
          rw [List.getElem?_cons_zero] at hx
          obtain rfl := Option.some.inj hx
          exact ⟨y, hfa, List.getElem?_cons_zero⟩
        | succ n =>
          rw [List.getElem?_cons_succ] at hx
          obtain ⟨y2, hy2, hys2⟩ := ih hrec hx
          exact ⟨y2, hy2, by rw [List.getElem?_cons_succ]; exact hys2⟩

/-- When every element of `xs` is already boxed, `mapOption` succeeds. -/
theorem mapOption_of_map_some {f : α → Option β} :
    ∀ {xs : List α} {ys : List β}, xs.map f = ys.map some → mapOption f xs = some ys := by
  intro xs
  induction xs with
  | nil =>
    intro ys h
    cases ys with
    | nil => rfl
    | cons y ys2 => simp at h
  | cons a as ih =>
    intro ys h
    cases ys with
    | nil => simp at h
    | cons y ys2 =>
      simp only [List.map_cons, List.cons.injEq] at h
      obtain ⟨h1, h2⟩ := h
      simp [mapOption, h1, ih h2]

/-- Every element produced by `zipWith3` is an image of the function. -/
theorem zipWith3_mem {f : α → β → γ → δ} :
    ∀ {as : List α} {bs : List β} {cs : List γ} {d : δ},
      d ∈ zipWith3 f as bs cs → ∃ a b c, d = f a b c := by
  intro as
  induction as with
  | nil => intro bs cs d h; cases bs <;> cases cs <;> cases h
  | cons a as2 ih =>
    intro bs cs d h
    cases bs with
    | nil => cases cs <;> cases h
    | cons b bs2 =>
      cases cs with
      | nil => cases h
      | cons c cs2 =>
        rcases List.mem_cons.mp h with h1 | h2
        · exact ⟨a, b, c, h1⟩
        · exact ih h2

/-- C5: for an input with a header row and zero data rows, the run performs
no backfill request and no ingest call, and reports the "no events" message
instead of faulting. -/
theorem empty_input_no_backfill_logs_no_events (orb : Orb) :
    (ingest_csv_to_orb orb []).backfillRequest = none ∧
    (ingest_csv_to_orb orb []).ingestCalls = [] ∧
    "No events were prepared for ingestion." ∈ (ingest_csv_to_orb orb []).messages :=
  ⟨rfl, rfl, List.mem_singleton.mpr rfl⟩

/-- C6: calling the backfill orchestrator on an empty event list does not
produce an explicit "no events to backfill" condition; the `min()` of the
empty sequence raises `ValueError`, which the blanket `except` turns into
the generic "Error creating backfill" message and a `None` result. -/
theorem empty_batch_backfill_generic_exception (orb : Orb) :
    create_backfill orb [] =
      (none, none, "Error creating backfill: min() arg is an empty sequence") := rfl

/-- C9: every cleaned row whose `month` is "03-2024" carries the normalized
timestamp "2024-03-01T00:00:00Z". -/
theorem month_march_2024_iso_timestamp (raws : List RawRow) (r : Row)
    (hmem : r ∈ cleanRows raws) (hm : r.month = "03-2024") :
    r.iso_timestamp = some "2024-03-01T00:00:00Z" := by
  obtain ⟨a, b, c, rfl⟩ := zipWith3_mem hmem
  simp only at hm ⊢
  rw [hm]
  decide

/-- Raw row used to exercise the month-normalization theorem. -/
def rawRowMarch : RawRow :=
  { account_id := "A001"
    month := "03-2024"
    transaction_id := "T1"
    account_type := "savings"
    bank_id := "B1"
    standard := Cell.nan
    sameday := Cell.nan
    customer_id := none }

/-- Cleaned image of `rawRowMarch` under the pipeline's column cleanup. -/
def rowMarch : Row :=
  { account_id := "A001"
    month := "03-2024"
    transaction_id := "T1"
    account_type := "savings"
    bank_id := "B1"
    standard := Cell.num ⟨0, 0⟩
    sameday := Cell.num ⟨0, 0⟩
    customer_id := none
    iso_timestamp := some "2024-03-01T00:00:00Z" }

/-- Witness for C9 at a concrete row. -/
theorem month_march_2024_iso_timestamp_witness :
    (rowMarch ∈ cleanRows [rawRowMarch] ∧ rowMarch.month = "03-2024") ∧
    rowMarch.iso_timestamp = some "2024-03-01T00:00:00Z" :=
  ⟨⟨by decide, by decide⟩,
    month_march_2024_iso_timestamp [rawRowMarch] rowMarch (by decide) (by decide)⟩

/-- C10: a row whose `customer_id` is present and a non-empty string
triggers no remote customer-creation call; the built event carries that
`customer_id` unchanged, and the cache is untouched. -/
theorem existing_customer_id_no_remote_call (orb : Orb) (i : Nat) (row : Row)
    (st : IngestState) (c : String)
    (h1 : row.customer_id = some c) (h2 : c ≠ "") :
    (processRow orb i row st).customerCalls = st.customerCalls ∧
    (processRow orb i row st).cache = st.cache ∧
    (processRow orb i row st).resolutions = st.resolutions ∧
    (processRow orb i row st).events = st.events ++ [mkEvent i row c] ∧
    (mkEvent i row c).customer_id = c := by
  have ht : truthyString row.customer_id = some c := by
    rw [h1]; simp [truthyString, h2]
  refine ⟨?_, ?_, ?_, ?_, rfl⟩ <;> simp [processRow, ht]

/-- Remote oracle whose customer creation always fails; used to show that a
row with its own customer id never consults the remote platform. -/
def orbAllFail : Orb :=
  { createCustomer := fun _ _ => none
    createBackfill := fun _ _ => none }

/-- Row carrying its own non-empty customer id. -/
def rowOwnCustomer : Row :=
  { account_id := "A002"
    month := "04-2024"
    transaction_id := "T2"
    account_type := "current"
    bank_id := "B2"
    standard := Cell.num ⟨100, 0⟩
    sameday := Cell.num ⟨0, 0⟩
    customer_id := some "CUST9"
    iso_timestamp := some "2024-04-01T00:00:00Z" }

/-- Witness for C10 at a concrete row and state. -/
theorem existing_customer_id_no_remote_call_witness :
    (rowOwnCustomer.customer_id = some "CUST9" ∧ "CUST9" ≠ "") ∧
    ((processRow orbAllFail 0 rowOwnCustomer initState).customerCalls = initState.customerCalls ∧
      (processRow orbAllFail 0 rowOwnCustomer initState).cache = initState.cache ∧
      (processRow orbAllFail 0 rowOwnCustomer initState).resolutions = initState.resolutions ∧
      (processRow orbAllFail 0 rowOwnCustomer initState).events =
        initState.events ++ [mkEvent 0 rowOwnCustomer "CUST9"] ∧
      (mkEvent 0 rowOwnCustomer "CUST9").customer_id = "CUST9") :=
  ⟨⟨rfl, by decide⟩,
    existing_customer_id_no_remote_call orbAllFail 0 rowOwnCustomer initState "CUST9" rfl (by decide)⟩

/-- C3 counterexample: an unparsable `standard`/`sameday` value is NOT
cleaned to 0.  `astype(float, errors='ignore')` returns the whole column
unchanged when any element fails to convert, and `fillna(0)` only replaces
missing values, so "abc" survives as the string "abc". -/
theorem unparsable_numeric_not_zero_counterexample :
    cleanNumericColumn [Cell.str "abc"] = [Cell.str "abc"] ∧
    Cell.str "abc" ≠ Cell.num ⟨0, 0⟩ := by decide

/-- C3 amended: a row whose field is unparsable after comma-stripping keeps
the comma-stripped string as its cleaned value (the whole-column float
conversion is skipped); only missing values become 0. -/
theorem unparsable_numeric_left_as_string (col : List Cell) (i : Nat) (s : String)
    (h1 : col[i]? = some (Cell.str s))
    (h2 : parseFloat (removeAll ',' s) = none) :
    (cleanNumericColumn col)[i]? = some (Cell.str (removeAll ',' s)) := by
  have hmap : (col.map replaceCommasCell)[i]? = some (Cell.str (removeAll ',' s)) := by
    rw [List.getElem?_map, h1]; rfl
  have hmem : Cell.str (removeAll ',' s) ∈ col.map replaceCommasCell :=
    mem_of_getElem_some hmap
  have hfail : mapOption tryFloatCell (col.map replaceCommasCell) = none := by
    apply mapOption_eq_none_of_mem hmem
    simp [tryFloatCell, h2]
  unfold cleanNumericColumn astypeFloatIgnore
  rw [hfail, List.getElem?_map, hmap]
  rfl

/-- Witness for the amended C3: in a column holding "7" and "abc", the
unparsable "abc" row cleans to the string "abc", not to 0. -/
theorem unparsable_numeric_left_as_string_witness :
    ([Cell.str "7", Cell.str "abc"][1]? = some (Cell.str "abc") ∧
      parseFloat (removeAll ',' "abc") = none) ∧
    (cleanNumericColumn [Cell.str "7", Cell.str "abc"])[1]? =
      some (Cell.str (removeAll ',' "abc")) :=
  ⟨⟨by decide, by decide⟩,
    unparsable_numeric_left_as_string [Cell.str "7", Cell.str "abc"] 1 "abc"
      (by decide) (by decide)⟩

/-- C4 counterexample: a comma-separated value does NOT always clean to the
comma-stripped float.  With "abc" elsewhere in the same column the whole
conversion is skipped and "1,234.50" cleans to the string "1234.50". -/
theorem comma_clean_not_float_counterexample :
    (cleanNumericColumn [Cell.str "1,234.50", Cell.str "abc"])[0]? =
      some (Cell.str "1234.50") ∧
    Cell.str "1234.50" ≠ Cell.num ⟨123450, 2⟩ := by decide

/-- C4 amended: when every value of the column converts after
comma-stripping, a comma-separated field cleans to exactly the
comma-stripped parsed number. -/
theorem comma_clean_float_when_column_parses (col : List Cell) (col2 : List Cell)
    (i : Nat) (s : String) (d : Decimal)
    (hall : mapOption tryFloatCell (col.map replaceCommasCell) = some col2)
    (h1 : col[i]? = some (Cell.str s))
    (h2 : parseFloat (removeAll ',' s) = some d) :
    (cleanNumericColumn col)[i]? = some (Cell.num d) := by
  have hmap : (col.map replaceCommasCell)[i]? = some (Cell.str (removeAll ',' s)) := by
    rw [List.getElem?_map, h1]; rfl
  obtain ⟨y, hy, hys⟩ := mapOption_getElem hall hmap
  have hyd : y = Cell.num d := by
    simp [tryFloatCell, h2] at hy
    exact hy.symm
  subst hyd
  unfold cleanNumericColumn astypeFloatIgnore
  rw [hall, List.getElem?_map, hys]
  rfl

/-- Witness for the amended C4: in a fully parsable column, "1,234.50"
cleans to the decimal 1234.50. -/
theorem comma_clean_float_when_column_parses_witness :
    (mapOption tryFloatCell ([Cell.str "1,234.50"].map replaceCommasCell) =
        some [Cell.num ⟨123450, 2⟩] ∧
      [Cell.str "1,234.50"][0]? = some (Cell.str "1,234.50") ∧
      parseFloat (removeAll ',' "1,234.50") = some ⟨123450, 2⟩) ∧
    (cleanNumericColumn [Cell.str "1,234.50"])[0]? = some (Cell.num ⟨123450, 2⟩) :=
  ⟨⟨by decide, by decide, by decide⟩,
    comma_clean_float_when_column_parses [Cell.str "1,234.50"] [Cell.num ⟨123450, 2⟩]
      0 "1,234.50" ⟨123450, 2⟩ (by decide) (by decide) (by decide)⟩

/-- C2: for a non-empty batch whose timestamps are all present, with `t`
the minimum timestamp (least element of the batch) and `t` parsing to `dt`
after stripping `Z`, the submitted backfill request has
`timeframe_start = t`, `timeframe_end` = `t` plus exactly 9 calendar days
rendered in the same `%Y-%m-%dT%H:%M:%SZ` form, no close time, and
`replace_existing_events = true`.  The request is recorded whether or not
the remote call succeeds. -/
theorem backfill_window_nine_days (orb : Orb) (events : List EventParams)
    (ts : List String) (t : String) (dt : DateTime)
    (hts : events.map (fun e => e.timestamp) = ts.map some)
    (hmem : t ∈ ts) (hmin : ∀ u ∈ ts, t ≤ u)
    (hdt : parseIso (removeAll 'Z' t) = some dt) :
    (create_backfill orb events).2.1 =
      some { timeframe_start := t
             timeframe_end := formatIso (addDays dt 9)
             close_time := none
             replace_existing_events := true } := by
  have hmo : mapOption (fun e => e.timestamp) events = some ts :=
    mapOption_of_map_some hts
  have htsmin : ts.min? = some t := by
    cases ts with
    | nil => cases hmem
    | cons a as =>
      have hm : (a :: as).min? = some (as.foldl min a) := rfl
      have hmem2 : as.foldl min a ∈ a :: as :=
        List.min?_mem (fun x y => min_choice x y) hm
      have hle : ∀ b ∈ a :: as, as.foldl min a ≤ b :=
        (List.le_min?_iff (fun x y z => le_min_iff) hm).mp (le_refl _)
      rw [hm, le_antisymm (hle t hmem) (hmin _ hmem2)]
  have hmint : minTimestamp events = .ok t := by
    simp only [minTimestamp, hmo, htsmin]
  simp only [create_backfill, hmint, hdt]
  cases horb : orb.createBackfill t (formatIso (addDays dt 9)) <;> simp [horb]

/-- Remote oracle that accepts every request; used for concrete runs. -/
def orbAllOk : Orb :=
  { createCustomer := fun e _ => some ("cust-" ++ e)
    createBackfill := fun _ _ => some "backfill_1" }

/-- A concrete event whose timestamp crosses a leap-February when 9 days
are added. -/
def eventFeb : EventParams :=
  { event_name := "ingest_event"
    idempotency_key := "event_0"
    account_id := "A001"
    month := "02-2024"
    transaction_id := "T1"
    account_type := "savings"
    bank_id := "B1"
    standard := Cell.num ⟨100, 0⟩
    sameday := Cell.num ⟨0, 0⟩
    timestamp := some "2024-02-25T12:30:00Z"
    customer_id := "C1" }

/-- Witness for C2 at a one-event batch: the window runs from
2024-02-25T12:30:00Z to 2024-03-05T12:30:00Z (9 days later, across the
leap-year February boundary). -/
theorem backfill_window_nine_days_witness :
    ([eventFeb].map (fun e => e.timestamp) = ["2024-02-25T12:30:00Z"].map some ∧
      "2024-02-25T12:30:00Z" ∈ ["2024-02-25T12:30:00Z"] ∧
      (∀ u ∈ ["2024-02-25T12:30:00Z"], "2024-02-25T12:30:00Z" ≤ u) ∧
      parseIso (removeAll 'Z' "2024-02-25T12:30:00Z") = some ⟨2024, 2, 25, 12, 30, 0⟩) ∧
    (create_backfill orbAllOk [eventFeb]).2.1 =
      some { timeframe_start := "2024-02-25T12:30:00Z"
             timeframe_end := "2024-03-05T12:30:00Z"
             close_time := none
             replace_existing_events := true } :=
  ⟨⟨rfl, by simp, by simp, by decide⟩,
    (backfill_window_nine_days orbAllOk [eventFeb] ["2024-02-25T12:30:00Z"]
        "2024-02-25T12:30:00Z" ⟨2024, 2, 25, 12, 30, 0⟩
        rfl (by simp) (by simp) (by decide)).trans (by decide)⟩

/-- C8: when the remote backfill-create call fails, the orchestrator
returns `None` with the logged error message, and the driver still issues
the single bulk ingest call, carrying whatever backfill id the
orchestrator returned (here `None`) instead of aborting the run. -/
theorem backfill_failure_null_then_ingest (orb : Orb) (events : List EventParams)
    (t : String) (dt : DateTime) (raws : List RawRow)
    (h1 : minTimestamp events = .ok t)
    (h2 : parseIso (removeAll 'Z' t) = some dt)
    (h3 : orb.createBackfill t (formatIso (addDays dt 9)) = none) :
    (create_backfill orb events).1 = none ∧
    (create_backfill orb events).2.2 = "Error creating backfill: API error" ∧
    ((buildEvents orb (cleanRows raws)).events ≠ [] →
      (ingest_csv_to_orb orb raws).ingestCalls =
        [{ events := (buildEvents orb (cleanRows raws)).events
           debug := true
           backfill_id := (create_backfill orb (buildEvents orb (cleanRows raws)).events).1 }]) := by
  refine ⟨?_, ?_, ?_⟩
  · simp only [create_backfill, h1, h2, h3]
  · simp only [create_backfill, h1, h2, h3]
    decide
  · intro hne
    have hfalse : (buildEvents orb (cleanRows raws)).events.isEmpty = false :=
      List.isEmpty_eq_false.mpr hne
    simp only [ingest_csv_to_orb, hfalse]
    rfl

/-- Remote oracle whose backfill creation always fails but whose customer
creation succeeds. -/
def orbBackfillFail : Orb :=
  { createCustomer := fun e _ => some ("cust-" ++ e)
    createBackfill := fun _ _ => none }

/-- Witness for C8: with a failing backfill endpoint, the orchestrator
returns `None` and the driver still issues the bulk ingest call. -/
theorem backfill_failure_null_then_ingest_witness :
    (minTimestamp [eventFeb] = .ok "2024-02-25T12:30:00Z" ∧
      parseIso (removeAll 'Z' "2024-02-25T12:30:00Z") = some ⟨2024, 2, 25, 12, 30, 0⟩ ∧
      orbBackfillFail.createBackfill "2024-02-25T12:30:00Z"
        (formatIso (addDays ⟨2024, 2, 25, 12, 30, 0⟩ 9)) = none) ∧
    ((create_backfill orbBackfillFail [eventFeb]).1 = none ∧
      (create_backfill orbBackfillFail [eventFeb]).2.2 = "Error creating backfill: API error" ∧
      ((buildEvents orbBackfillFail (cleanRows [rawRowMarch])).events ≠ [] →
        (ingest_csv_to_orb orbBackfillFail [rawRowMarch]).ingestCalls =
          [{ events := (buildEvents orbBackfillFail (cleanRows [rawRowMarch])).events
             debug := true
             backfill_id :=
               (create_backfill orbBackfillFail
                 (buildEvents orbBackfillFail (cleanRows [rawRowMarch])).events).1 }])) ∧
    (ingest_csv_to_orb orbBackfillFail [rawRowMarch]).backfill_id = none ∧
    (ingest_csv_to_orb orbBackfillFail [rawRowMarch]).ingestCalls.length = 1 :=
  ⟨⟨rfl, by decide, rfl⟩,
    backfill_failure_null_then_ingest orbBackfillFail [eventFeb]
      "2024-02-25T12:30:00Z" ⟨2024, 2, 25, 12, 30, 0⟩ [rawRowMarch]
      rfl (by decide) rfl,
    by decide, by decide⟩

/-- A row is processed successfully when it either carries its own truthy
customer id or the remote customer creation for its account succeeds. -/
def RowSucceeds (orb : Orb) (row : Row) : Prop :=
  truthyString row.customer_id ≠ none ∨
    orb.createCustomer (row.account_id ++ "@example.com")
      ("Customer " ++ row.account_id) ≠ none

instance (orb : Orb) (row : Row) : Decidable (RowSucceeds orb row) := by
  unfold RowSucceeds; infer_instance

/-- A successfully processed row appends exactly one event, keyed by the
row's position. -/
theorem processRow_appends_event (orb : Orb) (i : Nat) (row : Row) (st : IngestState)
    (h : RowSucceeds orb row) :
    ∃ ev : EventParams, (processRow orb i row st).events = st.events ++ [ev] ∧
      ev.idempotency_key = "event_" ++ toString i := by
  cases htc : truthyString row.customer_id with
  | some c => exact ⟨mkEvent i row c, by simp [processRow, htc], rfl⟩
  | none =>
    cases hl : lookupCache st.cache row.account_id with
    | some c =>
      exact ⟨mkEvent i row c, by simp [processRow, htc, create_or_get_customer, hl], rfl⟩
    | none =>
      cases hc : orb.createCustomer (row.account_id ++ "@example.com")
          ("Customer " ++ row.account_id) with
      | some c =>
        exact ⟨mkEvent i row c, by simp [processRow, htc, create_or_get_customer, hl, hc], rfl⟩
      | none =>
        rcases h with h | h
        · exact absurd htc h
        · exact absurd hc h

/-- The keys `event_i, event_(i+1), ..., event_(i+n-1)`. -/
def keysFrom : Nat → Nat → List String
  | _, 0 => []
  | i, n + 1 => ("event_" ++ toString i) :: keysFrom (i + 1) n

/-- Keys accumulated by the loop over a batch of successful rows. -/
theorem processRows_keys (orb : Orb) :
    ∀ (rows : List Row) (i : Nat) (st : IngestState),
      (∀ r ∈ rows, RowSucceeds orb r) →
      (processRows orb i rows st).events.map (fun e => e.idempotency_key) =
        st.events.map (fun e => e.idempotency_key) ++ keysFrom i rows.length := by
  intro rows
  induction rows with
  | nil => intro i st h; simp [processRows, keysFrom]
  | cons r rs ih =>
    intro i st h
    obtain ⟨ev, hev, hkey⟩ :=
      processRow_appends_event orb i r st (h r (List.mem_cons_self r rs))
    rw [processRows, ih (i + 1) _ (fun x hx => h x (List.mem_cons_of_mem r hx)), hev]
    simp [keysFrom, hkey]

/-- `keysFrom` enumerates exactly the positionally derived keys. -/
theorem keysFrom_eq_range : ∀ (n i : Nat),
    keysFrom i n = (List.range n).map (fun k => "event_" ++ toString (i + k)) := by
  intro n
  induction n with
  | zero => intro i; rfl
  | succ m ih =>
    intro i
    rw [keysFrom, List.range_succ_eq_map, List.map_cons, List.map_map]
    have h2 : ((fun k => "event_" ++ toString (i + k)) ∘ Nat.succ) =
        (fun k => "event_" ++ toString (i + 1 + k)) := by
      funext k
      show "event_" ++ toString (i + (k + 1)) = "event_" ++ toString (i + 1 + k)
      have h3 : i + (k + 1) = i + 1 + k := by omega
      rw [h3]
    rw [h2, ih (i + 1)]
    rfl

/-- C7: for a batch of N rows all processed successfully in order, the
idempotency keys of the built events are exactly `event_0 .. event_(N-1)`,
derived purely from row position.  `buildEvents` is a pure function of the
oracle and the rows, so rerunning on the same file reproduces the same
keys. -/
theorem idempotency_keys_positional (orb : Orb) (rows : List Row)
    (h : ∀ r ∈ rows, RowSucceeds orb r) :
    (buildEvents orb rows).events.map (fun e => e.idempotency_key) =
      (List.range rows.length).map (fun k => "event_" ++ toString k) := by
  rw [buildEvents, processRows_keys orb rows 0 initState h, keysFrom_eq_range]
  simp [initState]

/-- Two-row batch for the idempotency-key witness: one row resolves its
customer remotely, the other carries its own customer id. -/
def rowsPair : List Row :=
  [{ account_id := "A001"
     month := "03-2024"
     transaction_id := "T1"
     account_type := "savings"
     bank_id := "B1"
     standard := Cell.num ⟨100, 0⟩
     sameday := Cell.num ⟨0, 0⟩
     customer_id := none
     iso_timestamp := some "2024-03-01T00:00:00Z" },
   rowOwnCustomer]

/-- Witness for C7 on a concrete two-row batch: the keys are exactly
`event_0, event_1`. -/
theorem idempotency_keys_positional_witness :
    (∀ r ∈ rowsPair, RowSucceeds orbAllOk r) ∧
    (buildEvents orbAllOk rowsPair).events.map (fun e => e.idempotency_key) =
      (List.range rowsPair.length).map (fun k => "event_" ++ toString k) ∧
    (buildEvents orbAllOk rowsPair).events.map (fun e => e.idempotency_key) =
      ["event_0", "event_1"] :=
  ⟨by decide, idempotency_keys_positional orbAllOk rowsPair (by decide), by decide⟩

/-- Shape of `processRow` on a row carrying a truthy customer id. -/
theorem processRow_truthy (orb : Orb) (i : Nat) (row : Row) (st : IngestState) (c : String)
    (htc : truthyString row.customer_id = some c) :
    processRow orb i row st = { st with events := st.events ++ [mkEvent i row c] } := by
  simp [processRow, htc]

/-- Shape of `processRow` on a cache hit. -/
theorem processRow_cache_hit (orb : Orb) (i : Nat) (row : Row) (st : IngestState) (c : String)
    (htc : truthyString row.customer_id = none)
    (hl : lookupCache st.cache row.account_id = some c) :
    processRow orb i row st =
      { st with
        resolutions := st.resolutions ++ [(row.account_id, some c)]
        events := st.events ++ [mkEvent i row c] } := by
  simp [processRow, htc, create_or_get_customer, hl]

/-- Shape of `processRow` on a cache miss with successful remote creation. -/
theorem processRow_miss_ok (orb : Orb) (i : Nat) (row : Row) (st : IngestState) (c : String)
    (htc : truthyString row.customer_id = none)
    (hl : lookupCache st.cache row.account_id = none)
    (hc : orb.createCustomer (row.account_id ++ "@example.com")
      ("Customer " ++ row.account_id) = some c) :
    processRow orb i row st =
      { st with
        cache := (row.account_id, c) :: st.cache
        customerCalls := st.customerCalls ++ [row.account_id]
        resolutions := st.resolutions ++ [(row.account_id, some c)]
        events := st.events ++ [mkEvent i row c] } := by
  simp [processRow, htc, create_or_get_customer, hl, hc]

/-- Shape of `processRow` on a cache miss with failing remote creation. -/
theorem processRow_miss_fail (orb : Orb) (i : Nat) (row : Row) (st : IngestState)
    (htc : truthyString row.customer_id = none)
    (hl : lookupCache st.cache row.account_id = none)
    (hc : orb.createCustomer (row.account_id ++ "@example.com")
      ("Customer " ++ row.account_id) = none) :
    processRow orb i row st =
      { st with
        customerCalls := st.customerCalls ++ [row.account_id]
        resolutions := st.resolutions ++ [(row.account_id, none)] } := by
  simp [processRow, htc, create_or_get_customer, hl, hc]

/-- Loop invariant for account `A` whose remote creation yields `cid`:
every resolver invocation for `A` so far returned `cid`, and either `A` is
not yet cached (no remote call for it, no resolution for it), or it is
cached as `cid` with exactly one remote call made. -/
def CacheInv (A cid : String) (st : IngestState) : Prop :=
  (∀ p ∈ st.resolutions, p.1 = A → p.2 = some cid) ∧
  ((lookupCache st.cache A = none ∧ List.count A st.customerCalls = 0 ∧
      ∀ p ∈ st.resolutions, p.1 ≠ A) ∨
    (lookupCache st.cache A = some cid ∧ List.count A st.customerCalls = 1))

/-- One loop iteration preserves the cache invariant. -/
theorem cacheInv_step (orb : Orb) (A cid : String)
    (hA : orb.createCustomer (A ++ "@example.com") ("Customer " ++ A) = some cid)
    (i : Nat) (row : Row) (st : IngestState) (h : CacheInv A cid st) :
    CacheInv A cid (processRow orb i row st) := by
  obtain ⟨hres, hdisj⟩ := h
  cases htc : truthyString row.customer_id with
  | some c =>
    rw [processRow_truthy orb i row st c htc]
    exact ⟨hres, hdisj⟩
  | none =>
    cases hl : lookupCache st.cache row.account_id with
    | some c =>
      rw [processRow_cache_hit orb i row st c htc hl]
      by_cases hacct : row.account_id = A
      · subst hacct
        rcases hdisj with ⟨hnone, _, _⟩ | ⟨hsome, hcount⟩
        · rw [hl] at hnone; cases hnone
        · have hc2 : c = cid := Option.some.inj (hl.symm.trans hsome)
          subst hc2
          refine ⟨?_, Or.inr ⟨hsome, hcount⟩⟩
          intro p hp hpA
          rcases List.mem_append.mp hp with hp | hp
          · exact hres p hp hpA
          · rcases List.mem_singleton.mp hp with rfl
            rfl
      · refine ⟨?_, ?_⟩
        · intro p hp hpA
          rcases List.mem_append.mp hp with hp | hp
          · exact hres p hp hpA
          · rcases List.mem_singleton.mp hp with rfl
            exact absurd hpA hacct
        · rcases hdisj with ⟨h1, h2, h3⟩ | ⟨h1, h2⟩
          · refine Or.inl ⟨h1, h2, ?_⟩
            intro p hp
            rcases List.mem_append.mp hp with hp | hp
            · exact h3 p hp
            · rcases List.mem_singleton.mp hp with rfl
              exact hacct
          · exact Or.inr ⟨h1, h2⟩
    | none =>
      cases hc : orb.createCustomer (row.account_id ++ "@example.com")
          ("Customer " ++ row.account_id) with
      | some c =>
        rw [processRow_miss_ok orb i row st c htc hl hc]
        by_cases hacct : row.account_id = A
        · subst hacct
          have hc2 : c = cid := Option.some.inj (hc.symm.trans hA)
          subst hc2
          rcases hdisj with ⟨h1, h2, h3⟩ | ⟨h1, h2⟩
          · refine ⟨?_, Or.inr ⟨?_, ?_⟩⟩
            · intro p hp hpA
              rcases List.mem_append.mp hp with hp | hp
              · exact hres p hp hpA
              · rcases List.mem_singleton.mp hp with rfl
                rfl
            · simp [lookupCache]
            · rw [List.count_append, h2, List.count_singleton]
              simp
          · rw [hl] at h1; cases h1
        · refine ⟨?_, ?_⟩
          · intro p hp hpA
            rcases List.mem_append.mp hp with hp | hp
            · exact hres p hp hpA
            · rcases List.mem_singleton.mp hp with rfl
              exact absurd hpA hacct
          · have hlA : lookupCache ((row.account_id, c) :: st.cache) A =
                lookupCache st.cache A := by
              simp [lookupCache, hacct]
            have hcnt : List.count A (st.customerCalls ++ [row.account_id]) =
                List.count A st.customerCalls := by
              rw [List.count_append, List.count_singleton]
              simp
              intro hEq
              exact absurd hEq hacct
            rcases hdisj with ⟨h1, h2, h3⟩ | ⟨h1, h2⟩
            · refine Or.inl ⟨hlA.trans h1, hcnt.trans h2, ?_⟩
              intro p hp
              rcases List.mem_append.mp hp with hp | hp
              · exact h3 p hp
              · rcases List.mem_singleton.mp hp with rfl
                exact hacct
            · exact Or.inr ⟨hlA.trans h1, hcnt.trans h2⟩
      | none =>
        rw [processRow_miss_fail orb i row st htc hl hc]
        by_cases hacct : row.account_id = A
        · subst hacct
          rw [hA] at hc
          cases hc
        · refine ⟨?_, ?_⟩
          · intro p hp hpA
            rcases List.mem_append.mp hp with hp | hp
            · exact hres p hp hpA
            · rcases List.mem_singleton.mp hp with rfl
              exact absurd hpA hacct
          · have hcnt : List.count A (st.customerCalls ++ [row.account_id]) =
                List.count A st.customerCalls := by
              rw [List.count_append, List.count_singleton]
              simp
              intro hEq
              exact absurd hEq hacct
            rcases hdisj with ⟨h1, h2, h3⟩ | ⟨h1, h2⟩
            · refine Or.inl ⟨h1, hcnt.trans h2, ?_⟩
              intro p hp
              rcases List.mem_append.mp hp with hp | hp
              · exact h3 p hp
              · rcases List.mem_singleton.mp hp with rfl
                exact hacct
            · exact Or.inr ⟨h1, hcnt.trans h2⟩

/-- The whole loop preserves the cache invariant. -/
theorem cacheInv_run (orb : Orb) (A cid : String)
    (hA : orb.createCustomer (A ++ "@example.com") ("Customer " ++ A) = some cid) :
    ∀ (rows : List Row) (i : Nat) (st : IngestState),
      CacheInv A cid st → CacheInv A cid (processRows orb i rows st) := by
  intro rows
  induction rows with
  | nil => intro i st h; exact h
  | cons r rs ih =>
    intro i st h
    rw [processRows]
    exact ih (i + 1) _ (cacheInv_step orb A cid hA i r st h)

/-- C1: in one batch-mode run, every resolver invocation for an account
`A` without its own customer id returns the same customer identifier
`cid` (the one the remote platform assigns on first sight), and if the
resolver was invoked for `A` at all, exactly one remote customer-creation
call for `A` was made — later invocations are served from the cache. -/
theorem customer_cache_idempotent_batch (orb : Orb) (A cid : String) (rows : List Row)
    (hA : orb.createCustomer (A ++ "@example.com") ("Customer " ++ A) = some cid) :
    (∀ p ∈ (buildEvents orb rows).resolutions, p.1 = A → p.2 = some cid) ∧
    ((∃ p ∈ (buildEvents orb rows).resolutions, p.1 = A) →
      List.count A (buildEvents orb rows).customerCalls = 1) := by
  have h0 : CacheInv A cid initState := by
    refine ⟨?_, Or.inl ⟨rfl, rfl, ?_⟩⟩
    · intro p hp; cases hp
    · intro p hp; cases hp
  obtain ⟨h1, h2⟩ := cacheInv_run orb A cid hA rows 0 initState h0
  refine ⟨h1, ?_⟩
  rintro ⟨p, hp, hpA⟩
  rcases h2 with ⟨_, _, hno⟩ | ⟨_, hcount⟩
  · exact absurd hpA (hno p hp)
  · exact hcount

/-- Row without its own customer id, for the cache-idempotence witness. -/
def rowNoCustomer : Row :=
  { account_id := "A001"
    month := "03-2024"
    transaction_id := "T1"
    account_type := "savings"
    bank_id := "B1"
    standard := Cell.num ⟨100, 0⟩
    sameday := Cell.num ⟨0, 0⟩
    customer_id := none
    iso_timestamp := some "2024-03-01T00:00:00Z" }

/-- A batch with two rows sharing `account_id` "A001", neither carrying a
customer id. -/
def rowsSameAccount : List Row := [rowNoCustomer, rowNoCustomer]

/-- Witness for C1 on a concrete two-row batch: the resolver is invoked
twice for "A001", returns the same identifier both times, and exactly one
remote customer-creation call is made. -/
theorem customer_cache_idempotent_batch_witness :
    (orbAllOk.createCustomer ("A001" ++ "@example.com") ("Customer " ++ "A001") =
        some "cust-A001@example.com") ∧
    ((∀ p ∈ (buildEvents orbAllOk rowsSameAccount).resolutions,
        p.1 = "A001" → p.2 = some "cust-A001@example.com") ∧
      ((∃ p ∈ (buildEvents orbAllOk rowsSameAccount).resolutions, p.1 = "A001") →
        List.count "A001" (buildEvents orbAllOk rowsSameAccount).customerCalls = 1)) ∧
    (buildEvents orbAllOk rowsSameAccount).resolutions =
      [("A001", some "cust-A001@example.com"), ("A001", some "cust-A001@example.com")] ∧
    (buildEvents orbAllOk rowsSameAccount).customerCalls = ["A001"] :=
  ⟨by decide,
    customer_cache_idempotent_batch orbAllOk "A001" "cust-A001@example.com"
      rowsSameAccount (by decide),
    by decide, by decide⟩
